import Mathlib

/-!
Verification of `zap2xml.py` (deathbybandaid/zap2xml-py): a shallow embedding
of the script's windowed fetch-cache pipeline and its JSON→XMLTV transform,
with theorems settling the frozen specification claims.

Conventions of the embedding:
* Python strings are Lean `String`s; `bytes` payloads are also modelled as
  `String`s (the script only ever round-trips them).
* Optional / possibly-missing JSON fields are `Option String`.
* Fallible Python code (uncaught exceptions: `NameError`, `ValueError`,
  a failed ISO-8601 parse) is modelled with `Option` / `Except`.
* Machine-level recursion is fuel-based so every definition reduces in the
  kernel (`rfl` / `decide` on concrete inputs).
-/

namespace Zap2xml

/-- Python truthiness of an optional string field: `None` and `""` are falsy. -/
def truthy : Option String → Bool
  | none => false
  | some s => s ≠ ""

/-- One step of Python's `str.replace(old, new)` scan (non-overlapping,
left-to-right), fuel-recursive so it reduces in the kernel.  When the pattern
is a prefix of the remaining text it is consumed and replaced, otherwise one
character is copied. -/
def pyReplaceAux (pat rep : List Char) : Nat → List Char → List Char
  | 0, cs => cs
  | _ + 1, [] => []
  | fuel + 1, c :: rest =>
    if pat ≠ [] && pat.isPrefixOf (c :: rest) then
      rep ++ pyReplaceAux pat rep fuel (List.drop (pat.length - 1) rest)
    else
      c :: pyReplaceAux pat rep fuel rest

/-- Python's `s.replace(old, new)`: replace every non-overlapping occurrence. -/
def pyReplace (s pat rep : String) : String :=
  ⟨pyReplaceAux pat.data rep.data s.data.length s.data⟩

/-- Value of a decimal digit character. -/
def digitVal (c : Char) : Option Nat :=
  if '0' ≤ c && c ≤ '9' then some (c.toNat - 48) else none

/-- Digits of a non-empty decimal numeral, most significant first. -/
def digitsToNat : List Char → Option Nat
  | [] => none
  | cs =>
    cs.foldl (fun acc c => do
      let a ← acc
      let d ← digitVal c
      pure (a * 10 + d)) (some 0)

/-- Python whitespace accepted by `int(...)` around the numeral. -/
def isPyWs (c : Char) : Bool :=
  c = ' ' || c = '\t' || c = '\n' || c = '\r' || c = '\x0b' || c = '\x0c'

/-- Model of Python `int(s, 10)`: optional surrounding whitespace, an optional
sign, then one or more decimal digits; anything else raises (here: `none`). -/
def pyInt10 (s : String) : Option Int := do
  let cs := (s.data.dropWhile isPyWs).reverse.dropWhile isPyWs |>.reverse
  match cs with
  | '+' :: rest => do let n ← digitsToNat rest; pure (Int.ofNat n)
  | '-' :: rest => do let n ← digitsToNat rest; pure (-(Int.ofNat n : Int))
  | rest => do let n ← digitsToNat rest; pure (Int.ofNat n)

/-- Decimal rendering of a `Nat` (digit characters, most significant first). -/
def natDigits : Nat → Nat → List Char
  | 0, _ => []
  | fuel + 1, n =>
    if n < 10 then [Char.ofNat (48 + n)]
    else natDigits fuel (n / 10) ++ [Char.ofNat (48 + n % 10)]

/-- Python `str(n)` for a natural number. -/
def natStr (n : Nat) : String := ⟨natDigits (n + 1) n⟩

/-- Python `'%d' % i` for an integer. -/
def intStr : Int → String
  | Int.ofNat n => natStr n
  | Int.negSucc n => "-" ++ natStr (n + 1)

/-- Left-pad a string with zeros to the given width (Python `'%0*d'`). -/
def zeroPad (w : Nat) (s : String) : String :=
  ⟨List.replicate (w - s.data.length) '0' ++ s.data⟩

/-- Python `'%02d' % i`. -/
def fmt02 (i : Int) : String := zeroPad 2 (intStr i)

/-- Drop the first `n` characters (Python `s[n:]`). -/
def strDrop (s : String) (n : Nat) : String := ⟨s.data.drop n⟩

/-- Python `s.split("?")[0]`: the text before the first question mark. -/
def beforeQuery (s : String) : String := ⟨s.data.takeWhile (fun c => c ≠ '?')⟩

/-- A parsed `datetime.datetime`: calendar fields plus an optional fixed UTC
offset `(negative?, hours, minutes)`. -/
structure PyDateTime where
  year : Nat
  month : Nat
  day : Nat
  hour : Nat
  minute : Nat
  second : Nat
  tz : Option (Bool × Nat × Nat)
deriving DecidableEq

/-- Two decimal digits. -/
def twoDigits : Char → Char → Option Nat
  | c1, c2 => do
    let d1 ← digitVal c1
    let d2 ← digitVal c2
    pure (d1 * 10 + d2)

/-- Model of `datetime.datetime.fromisoformat` on the shapes the feed uses:
`YYYY-MM-DD<sep>HH:MM:SS` with an optional `±HH:MM` offset (any single
separator character, as CPython accepts).  Out-of-range fields fail.  A zero
offset is normalised to `+00:00`, matching `datetime.timezone.utc` rendering. -/
def fromIsoFormat (s : String) : Option PyDateTime := do
  let core : List Char → Option (Nat × Nat × Nat × Nat × Nat × Nat) :=
    fun cs =>
      match cs with
      | [y1, y2, y3, y4, '-', m1, m2, '-', d1, d2, _, h1, h2, ':', n1, n2, ':', s1, s2] => do
        let ythou ← digitVal y1
        let yhun ← digitVal y2
        let yten ← digitVal y3
        let yone ← digitVal y4
        let mo ← twoDigits m1 m2
        let da ← twoDigits d1 d2
        let ho ← twoDigits h1 h2
        let mi ← twoDigits n1 n2
        let se ← twoDigits s1 s2
        if 1 ≤ mo && mo ≤ 12 && 1 ≤ da && da ≤ 31 && ho ≤ 23 && mi ≤ 59 && se ≤ 59 then
          pure (ythou * 1000 + yhun * 100 + yten * 10 + yone, mo, da, ho, mi, se)
        else none
      | _ => none
  let cs := s.data
  if cs.length = 19 then do
    let (y, mo, da, ho, mi, se) ← core cs
    pure ⟨y, mo, da, ho, mi, se, none⟩
  else if cs.length = 25 then do
    let (y, mo, da, ho, mi, se) ← core (cs.take 19)
    match cs.drop 19 with
    | [sgn, o1, o2, ':', o3, o4] => do
      let oh ← twoDigits o1 o2
      let om ← twoDigits o3 o4
      let neg ← if sgn = '+' then some false else if sgn = '-' then some true else none
      if oh ≤ 23 && om ≤ 59 then
        pure ⟨y, mo, da, ho, mi, se, some (neg && !(oh = 0 && om = 0), oh, om)⟩
      else none
    | _ => none
  else none

/-- `tm_parse` (src/zap2xml.py:122-124): replace `Z` with `+00:00`, then
`datetime.datetime.fromisoformat`. -/
def tmParse (tm : String) : Option PyDateTime :=
  fromIsoFormat (pyReplace tm "Z" "+00:00")

/-- `strftime('%z')`: empty for a naive datetime, else `±HHMM`. -/
def strfZ (dt : PyDateTime) : String :=
  match dt.tz with
  | none => ""
  | some (neg, oh, om) => (if neg then "-" else "+") ++ zeroPad 2 (natStr oh) ++ zeroPad 2 (natStr om)

/-- `strftime('%Y%m%d%H%M%S %z')` as used for programme `start`/`stop`. -/
def strfTimestamp (dt : PyDateTime) : String :=
  zeroPad 4 (natStr dt.year) ++ zeroPad 2 (natStr dt.month) ++ zeroPad 2 (natStr dt.day) ++
    zeroPad 2 (natStr dt.hour) ++ zeroPad 2 (natStr dt.minute) ++ zeroPad 2 (natStr dt.second) ++
    " " ++ strfZ dt

/-- `tm_parse` followed by `strftime('%Y%m%d%H%M%S %z')`: the attribute text of
`start`/`stop` on a programme element (`none` models the uncaught `ValueError`
of a failed parse). -/
def fmtTime (tm : String) : Option String := (tmParse tm).map strfTimestamp

/-- A JSON value (numbers kept as source text; the script never uses their
numeric value before stringifying). -/
inductive J where
  | null : J
  | jbool : Bool → J
  | jnum : String → J
  | jstr : String → J
  | jarr : List J → J
  | jobj : List (String × J) → J

/-- JSON whitespace. -/
def isJsonWs (c : Char) : Bool :=
  c = ' ' || c = '\n' || c = '\t' || c = '\r'

/-- Characters a (simplified) number literal may contain. -/
def isNumChar (c : Char) : Bool :=
  c.isDigit || c = '-' || c = '+' || c = '.' || c = 'e' || c = 'E'

/-- A short JSON string escape (the `\uXXXX` form is not modelled). -/
def unescapeChar : Char → Option Char
  | '"' => some '"'
  | '\\' => some '\\'
  | '/' => some '/'
  | 'b' => some (Char.ofNat 8)
  | 'f' => some (Char.ofNat 12)
  | 'n' => some '\n'
  | 'r' => some '\r'
  | 't' => some '\t'
  | _ => none

/-- Recursive-descent mode: a value, the body of a string literal, the members
of an object (accumulated so far), or the items of a non-empty array. -/
inductive PMode where
  | val : PMode
  | strBody : PMode
  | members : List (String × J) → PMode
  | items : List J → PMode

/-- One fuel-indexed step of the JSON reader (model of Python `json.loads`,
restricted to the feed's shapes).  Returns the parsed value and the unread
remainder. -/
def parseStep : Nat → PMode → List Char → Option (J × List Char)
  | 0, _, _ => none
  | fuel + 1, PMode.val, cs =>
    match cs.dropWhile isJsonWs with
    | '{' :: rest =>
      match rest.dropWhile isJsonWs with
      | '}' :: r2 => some (J.jobj [], r2)
      | r2 => parseStep fuel (PMode.members []) r2
    | '[' :: rest =>
      match rest.dropWhile isJsonWs with
      | ']' :: r2 => some (J.jarr [], r2)
      | r2 => parseStep fuel (PMode.items []) r2
    | '"' :: rest => parseStep fuel PMode.strBody rest
    | 't' :: 'r' :: 'u' :: 'e' :: rest => some (J.jbool true, rest)
    | 'f' :: 'a' :: 'l' :: 's' :: 'e' :: rest => some (J.jbool false, rest)
    | 'n' :: 'u' :: 'l' :: 'l' :: rest => some (J.null, rest)
    | c :: rest =>
      if c.isDigit || c = '-' then
        some (J.jnum ⟨c :: rest.takeWhile isNumChar⟩, rest.dropWhile isNumChar)
      else none
    | [] => none
  | fuel + 1, PMode.strBody, cs =>
    match cs with
    | '"' :: rest => some (J.jstr "", rest)
    | '\\' :: e :: rest => do
      let c ← unescapeChar e
      let (v, r) ← parseStep fuel PMode.strBody rest
      match v with
      | J.jstr s => pure (J.jstr ⟨c :: s.data⟩, r)
      | _ => none
    | c :: rest => do
      let (v, r) ← parseStep fuel PMode.strBody rest
      match v with
      | J.jstr s => pure (J.jstr ⟨c :: s.data⟩, r)
      | _ => none
    | [] => none
  | fuel + 1, PMode.members acc, cs =>
    match cs.dropWhile isJsonWs with
    | '"' :: rest => do
      let (k, r1) ← parseStep fuel PMode.strBody rest
      match k with
      | J.jstr ks =>
        match r1.dropWhile isJsonWs with
        | ':' :: r2 => do
          let (v, r3) ← parseStep fuel PMode.val r2
          match r3.dropWhile isJsonWs with
          | ',' :: r4 => parseStep fuel (PMode.members (acc ++ [(ks, v)])) r4
          | '}' :: r4 => some (J.jobj (acc ++ [(ks, v)]), r4)
          | _ => none
        | _ => none
      | _ => none
    | _ => none
  | fuel + 1, PMode.items acc, cs => do
    let (v, r) ← parseStep fuel PMode.val cs
    match r.dropWhile isJsonWs with
    | ',' :: r2 => parseStep fuel (PMode.items (acc ++ [v])) r2
    | ']' :: r2 => some (J.jarr (acc ++ [v]), r2)
    | _ => none

/-- Model of Python `json.loads`: parse one JSON document, requiring only
trailing whitespace after it. -/
def jsonLoads (s : String) : Option J :=
  match parseStep (s.data.length + 2) PMode.val s.data with
  | some (v, rest) => if rest.dropWhile isJsonWs = [] then some v else none
  | none => none

/-- Field lookup on a JSON object (Python `d[key]`, `None` for the `KeyError`
case or a non-object). -/
def J.getField (key : String) : J → Option J
  | J.jobj kvs => kvs.lookup key
  | _ => none

/-- The fields of an event's embedded `program` record that the script reads. -/
structure Program where
  title : Option String
  episodeTitle : Option String
  shortDesc : Option String
  releaseYear : Option String
  season : Option String
  episode : Option String
deriving DecidableEq

/-- One event of a channel, as consumed from the decoded feed. -/
structure Event where
  startTime : String
  endTime : String
  duration : String
  filter : List String
  thumbnail : Option String
  rating : Option String
  flag : List String
  program : Program
deriving DecidableEq

/-- One channel entry of the decoded feed. -/
structure Channel where
  channelNo : String
  channelId : String
  callSign : String
  thumbnail : String
  events : List Event
deriving DecidableEq

/-- A decoded JSON payload (`json.loads` result), as far as the script reads it. -/
structure Payload where
  channels : List Channel
deriving DecidableEq

/-- An `xml.etree.ElementTree` element: tag, attributes in insertion order,
optional text, children in insertion order. -/
inductive Xml where
  | el : String → List (String × String) → Option String → List Xml → Xml

/-- Tag name of an element. -/
def Xml.name : Xml → String
  | Xml.el n _ _ _ => n

/-- Attribute list of an element. -/
def Xml.attrs : Xml → List (String × String)
  | Xml.el _ a _ _ => a

/-- Text of an element. -/
def Xml.text : Xml → Option String
  | Xml.el _ _ t _ => t

/-- Children of an element. -/
def Xml.children : Xml → List Xml
  | Xml.el _ _ _ c => c

/-- `sub_el` (src/zap2xml.py:127-131) as a leaf builder: `el.text` is set only
when the `text` argument is given and truthy (a non-empty string). -/
def subEl (name : String) (attrs : List (String × String)) (text : Option String) : Xml :=
  Xml.el name attrs
    (match text with
     | some t => if t = "" then none else some t
     | none => none) []

/-- The derived channel identity `'I%s.%s.zap2it.com' % (channelNo, channelId)`. -/
def zapChannelId (channelNo channelId : String) : String :=
  "I" ++ channelNo ++ "." ++ channelId ++ ".zap2it.com"

/-- One `channel` element (src/zap2xml.py:199-206): three `display-name`
variants and an `icon` whose `src` is the thumbnail with `//` removed and any
query string dropped. -/
def channelXml (c : Channel) : Xml :=
  Xml.el "channel" [("id", zapChannelId c.channelNo c.channelId)] none
    [subEl "display-name" [] (some (c.channelNo ++ " " ++ c.callSign)),
     subEl "display-name" [] (some c.channelNo),
     subEl "display-name" [] (some c.callSign),
     Xml.el "icon" [("src", beforeQuery (pyReplace c.thumbnail "//" ""))] none []]

/-- The `start`/`stop`/`channel` attributes of a programme element
(src/zap2xml.py:214-217); `none` models the `ValueError` of `tm_parse` on an
unparseable timestamp. -/
def evAttrs (cId : String) (e : Event) : Option (List (String × String)) := do
  let st ← fmtTime e.startTime
  let en ← fmtTime e.endTime
  pure [("start", st), ("stop", en), ("channel", cId)]

/-- A programme element under construction: the event that created it (the
loop variables `event`/`prog_in` still reference it after the event loop), its
attributes, and the children appended so far. -/
structure PNode where
  ev : Event
  attrs : List (String × String)
  kids : List Xml

/-- Render a finished programme element. -/
def closePNode (p : PNode) : Xml := Xml.el "programme" p.attrs none p.kids

/-- Aggregation state over the channel loop: programme elements already
created, in creation order, plus the most recently created one (`prog_out`,
still the target of detail appends).  `openP = none` models `prog_out` being
undefined (`NameError` if the detail block runs then). -/
structure AggSt where
  closed : List PNode
  openP : Option PNode

/-- The body of `for event in c['events']` (src/zap2xml.py:210-217): parse the
two timestamps and create a new `programme` element under the root. -/
def pushEvent (cId : String) (st : AggSt) (e : Event) : Option AggSt := do
  let attrs ← evAttrs cId e
  pure ⟨st.closed ++ st.openP.toList, some ⟨e, attrs, []⟩⟩

/-- The detail block (src/zap2xml.py:219-256), which in the source sits at
channel level, after the event loop: the children it appends to `prog_out` for
the event `e` that `event`/`prog_in` reference.  `none` models the uncaught
`ValueError` when a truthy season/episode fails `int(_, 10)`. -/
def detailChildren (e : Event) : Option (List Xml) := do
  let p := e.program
  let titleEls :=
    if truthy p.title then [subEl "title" [("lang", "en")] (some (p.title.getD ""))] else []
  let subtitleEls :=
    if e.filter.contains "filter-movie" && truthy p.releaseYear then
      [subEl "sub-title" [("lang", "en")] (some ("Movie: " ++ p.releaseYear.getD ""))]
    else if truthy p.episodeTitle then
      [subEl "sub-title" [("lang", "en")] (some (p.episodeTitle.getD ""))]
    else []
  let descText := match p.shortDesc with
    | none => "Unavailable"
    | some s => s
  let descEl := subEl "desc" [("lang", "en")] (some descText)
  let lenEl := subEl "length" [("units", "minutes")] (some e.duration)
  let catEls := e.filter.flatMap (fun f =>
    [subEl "category" [("lang", "en")] (some (pyReplace f "filter-" "")),
     subEl "genre" [("lang", "en")] (some (strDrop f 7))])
  let iconEls := match e.thumbnail with
    | some t => [Xml.el "icon" [("src", "https://zap2it.tmsimg.com/assets/" ++ t ++ ".jpg")] none []]
    | none => []
  let ratingEls :=
    if truthy e.rating then
      [Xml.el "rating" [] none [subEl "value" [] (some (e.rating.getD ""))]]
    else []
  let epEls ←
    if truthy p.season && truthy p.episode then do
      let sN ← pyInt10 (p.season.getD "")
      let eN ← pyInt10 (p.episode.getD "")
      pure [subEl "episode-num" [("system", "common")] (some ("S" ++ fmt02 sN ++ "E" ++ fmt02 eN)),
            subEl "episode-num" [("system", "xmltv_ns")]
              (some (intStr (sN - 1) ++ "." ++ intStr (eN - 1) ++ ".")),
            subEl "episode-num" [("system", "SxxExx\">S")]
              (some ("S" ++ fmt02 sN ++ "E" ++ fmt02 eN))]
    else pure []
  let newEls :=
    if e.flag.contains "New" && !(e.flag.contains "live") then [subEl "new" [] none] else []
  pure (titleEls ++ subtitleEls ++ [descEl, lenEl] ++ catEls ++ iconEls ++ ratingEls ++ epEls ++ newEls)

/-- The body of `for c in d['channels']` (src/zap2xml.py:208-256): run the
event loop, then run the detail block once, appending its children to whatever
programme element `prog_out` currently references (the channel's last event's
one, or a stale one from a previous channel when this channel has no events;
`NameError` — `none` — when no programme was ever created). -/
def processChannel (st : AggSt) (c : Channel) : Option AggSt :=
  (c.events.foldlM (pushEvent (zapChannelId c.channelNo c.channelId)) st).bind
    (fun st1 =>
      match st1.openP with
      | none => none
      | some p =>
        (detailChildren p.ev).map
          (fun det => ⟨st1.closed, some ⟨p.ev, p.attrs, p.kids ++ det⟩⟩))

/-- All programme elements produced for one decoded payload, in creation
order (the channel loop of src/zap2xml.py:208-256). -/
def aggregate (chs : List Channel) : Option (List Xml) := do
  let st ← chs.foldlM processChannel ⟨[], none⟩
  pure ((st.closed ++ st.openP.toList).map closePNode)

/-- The fixed provenance attributes of the `tv` root (src/zap2xml.py:160-164). -/
def rootAttrs : List (String × String) :=
  [("source-info-url", "http://tvlistings.zap2it.com/"),
   ("source-info-name", "zap2it.com"),
   ("generator-info-name", "zap2xml.py"),
   ("generator-info-url", "github.com/deathbybandaid/zap2xml-py")]

/-- The output document built from one decoded payload: the channel block
(src/zap2xml.py:196-206, guarded by `done_channels`, which runs exactly once
and unconditionally marks channels as done) followed by the programme
elements. -/
def buildDoc (d : Payload) : Option Xml := do
  let progs ← aggregate d.channels
  pure (Xml.el "tv" rootAttrs none (d.channels.map channelXml ++ progs))

/-- The bucket start times the fetch loop computes (src/zap2xml.py:151-168):
`zap_time` is the reference time rounded down to a multiple of
`zap_timespan * 3600` seconds and bucket `i` starts `i` windows later, for
`i` in `range(int(7 * 24 / zap_timespan))`. -/
def planBuckets (span : Nat) (ref : Nat) : List Nat :=
  (List.range (7 * 24 / span)).map (fun i => (ref - ref % (span * 3600)) + i * (span * 3600))

/-- The bucket time of the final loop iteration — the value `i_time` holds
after the `for i in range(...)` loop ends. -/
def lastBucketTime (span ref : Nat) : Nat :=
  (ref - ref % (span * 3600)) + (7 * 24 / span - 1) * (span * 3600)

/-- The whole run of `main` after argument parsing (src/zap2xml.py:149-261),
with the cache/fetch/decode chain abstracted as `data : Nat → Payload` (the
decoded payload that `json.loads(get_cached(cache_dir, str(t), ...))` yields
for bucket time `t`).  Because the fetch, decode and aggregation statements
sit after — not inside — the bucket loop, exactly one cache key is consulted:
`str(i_time)` for the final planned bucket.  Returns the document and the
list of consulted cache keys; `none` models the `NameError` when the loop ran
zero times (so `i_time` is undefined) or a crash inside the transform. -/
def mainRun (span ref : Nat) (data : Nat → Payload) : Option (Xml × List Nat) :=
  if 7 * 24 / span = 0 then none
  else (buildDoc (data (lastBucketTime span ref))).map
    (fun doc => (doc, [lastBucketTime span ref]))

/-- Result of one `get_cached` call: the returned bytes, the cache contents
afterwards, whether `urllib.request.urlopen` was invoked, and how many
seconds were slept. -/
structure CacheResult where
  bytes : String
  cache : List (String × String)
  fetched : Bool
  slept : Nat
deriving DecidableEq

/-- Outcome of the network fetch for a URL: a body, or an HTTP error code. -/
inductive FetchResult where
  | ok : String → FetchResult
  | httpError : Nat → FetchResult

/-- The synthetic payload substituted for a 400 response
(src/zap2xml.py:97-101). -/
def placeholder400 : String :=
  "\x7b\"note\": \"Got a 400 error at this time, skipping.\",\"channels\": []\x7d"

/-- `get_cached` (src/zap2xml.py:83-107) over an explicit cache (filename →
bytes): a cache hit returns the stored bytes with no fetch and no sleep; a
miss fetches, substitutes the placeholder on a 400, persists the result under
the key and sleeps `delay`; any other HTTP error propagates
(`Except.error code`). -/
def getCached (cache : List (String × String)) (cacheKey : String) (delay : Nat)
    (fetch : FetchResult) : Except Nat CacheResult :=
  match cache.lookup cacheKey with
  | some b => Except.ok ⟨b, cache, false, 0⟩
  | none =>
    match fetch with
    | FetchResult.ok body => Except.ok ⟨body, cache ++ [(cacheKey, body)], true, delay⟩
    | FetchResult.httpError code =>
      if code = 400 then
        Except.ok ⟨placeholder400, cache ++ [(cacheKey, placeholder400)], true, delay⟩
      else Except.error code

/-- Whether `remove_stale_cache` (src/zap2xml.py:110-119) keeps a cache file:
only a filename that parses as an integer at least `zap_time` reaches the
`continue`; every other file — including one whose name fails `int(...)`,
since the bare `except: pass` falls through — is unlinked. -/
def keepCacheEntry (zapTime : Int) (name : String) : Bool :=
  match pyInt10 name with
  | some t => zapTime ≤ t
  | none => false

/-- The cache directory contents surviving `remove_stale_cache`. -/
def removeStaleCache (names : List String) (zapTime : Int) : List String :=
  names.filter (keepCacheEntry zapTime)

/-- The bare programme nodes the event loop creates for a list of events:
`start`/`stop`/`channel` attributes only, no children yet. -/
def barePNodes (cId : String) (es : List Event) : Option (List PNode) :=
  es.mapM (fun e => (evAttrs cId e).map (fun a => PNode.mk e a []))

/-! ### Concrete fixtures (inputs for witnesses, counterexamples and
evaluation theorems) -/

/-- Programme with a short description. -/
def progT1 : Program := ⟨some "ShowA", none, some "descA", none, none, none⟩

/-- Programme without a short description. -/
def progT2 : Program := ⟨some "ShowB", none, none, none, none, none⟩

/-- A second programme with a short description. -/
def progT3 : Program := ⟨some "ShowC", none, some "descC", none, none, none⟩

/-- Programme with season 1 and episode 5. -/
def progEp : Program := ⟨some "ShowE", none, some "descE", none, some "1", some "5"⟩

def evD1 : Event :=
  ⟨"2020-06-06T00:00:00Z", "2020-06-06T01:00:00Z", "60", [], none, none, [], progT1⟩

def evD2 : Event :=
  ⟨"2020-06-06T01:00:00Z", "2020-06-06T02:00:00Z", "60", [], none, none, [], progT2⟩

def evD3 : Event :=
  ⟨"2020-06-06T02:00:00Z", "2020-06-06T03:00:00Z", "60", [], none, none, [], progT3⟩

def chD : Channel := ⟨"2.1", "42", "AAA", "thumb", [evD1, evD2]⟩

def chD2 : Channel := ⟨"3.1", "43", "BBB", "thumb", [evD3]⟩

def payD : Payload := ⟨[chD, chD2]⟩

def evE1 : Event :=
  ⟨"2020-06-06T00:00:00Z", "2020-06-06T01:00:00Z", "60", [], none, none, [], progEp⟩

def evE2 : Event :=
  ⟨"2020-06-06T01:00:00Z", "2020-06-06T02:00:00Z", "60", [], none, none, [], progT1⟩

def evE3 : Event :=
  ⟨"2020-06-06T02:00:00Z", "2020-06-06T03:00:00Z", "60", [], none, none, [], progEp⟩

def chE1 : Channel := ⟨"2.1", "42", "AAA", "thumb", [evE1, evE2]⟩

def chE2 : Channel := ⟨"3.1", "43", "BBB", "thumb", [evE3]⟩

def payE : Payload := ⟨[chE1, chE2]⟩

def evN1 : Event :=
  ⟨"2020-06-06T00:00:00Z", "2020-06-06T01:00:00Z", "60", [], none, none, ["New"], progT1⟩

def evN2 : Event :=
  ⟨"2020-06-06T01:00:00Z", "2020-06-06T02:00:00Z", "60", [], none, none, [], progT1⟩

def evNL : Event :=
  ⟨"2020-06-06T00:00:00Z", "2020-06-06T01:00:00Z", "60", [], none, none, ["New", "live"], progT1⟩

def evNew : Event :=
  ⟨"2020-06-06T00:00:00Z", "2020-06-06T01:00:00Z", "60", [], none, none, ["New"], progT1⟩

def chN1 : Channel := ⟨"2.1", "42", "AAA", "thumb", [evN1, evN2]⟩

def chN2 : Channel := ⟨"3.1", "43", "BBB", "thumb", [evNL]⟩

def chN3 : Channel := ⟨"4.1", "44", "CCC", "thumb", [evNew]⟩

def payN : Payload := ⟨[chN1, chN2, chN3]⟩

def chA1 : Channel := ⟨"2.1", "42", "AAA", "thumb", [evD1]⟩

def chA2 : Channel := ⟨"3.1", "43", "BBB", "thumb", [evD2]⟩

/-- Bucket A of the end-to-end scenario: two channels, one event each. -/
def payA : Payload := ⟨[chA1, chA2]⟩

def chB1 : Channel := ⟨"2.1", "42", "AAA", "thumb", [evD3]⟩

def evB2 : Event :=
  ⟨"2020-06-06T03:00:00Z", "2020-06-06T04:00:00Z", "60", [], none, none, [], progT3⟩

def chB2 : Channel := ⟨"3.1", "43", "BBB", "thumb", [evB2]⟩

/-- Bucket B of the end-to-end scenario: the same two channels, one further
event each. -/
def payB : Payload := ⟨[chB1, chB2]⟩

/-- The per-bucket decoded payloads of the two-bucket scenario (span 84 hours,
reference time 0: buckets 0 and 302400). -/
def dataAB (t : Nat) : Payload :=
  if t = 0 then payA else if t = 302400 then payB else ⟨[]⟩

/-- Bucket data where only the first bucket carries a channel and the final
bucket decodes to an empty channel list. -/
def c3Data (t : Nat) : Payload :=
  if t = 0 then payA else ⟨[]⟩

/-! ### Helper lemmas -/

theorem lookup_append_of_none {α β : Type} [BEq α] (l1 l2 : List (α × β)) (k : α)
    (h : l1.lookup k = none) : (l1 ++ l2).lookup k = l2.lookup k := by
  induction l1 with
  | nil => rfl
  | cons p l ih =>
    obtain ⟨a, b⟩ := p
    cases hb : (k == a) with
    | true =>
      simp only [List.cons_append, List.lookup, hb] at h
      exact absurd h (Option.some_ne_none b)
    | false =>
      simp only [List.cons_append, List.lookup, hb] at h ⊢
      exact ih h

/-! ### C2 — stale-cache eviction -/

/-- C2 (counterexample): the claim says an entry whose filename fails to parse
as an integer is never removed, but `remove_stale_cache` unlinks it: with the
cache directory holding only the file `abc` (unparseable) and
`current_first_bucket = 50`, nothing survives. -/
theorem c2_counterexample :
    pyInt10 "abc" = none ∧ removeStaleCache ["abc"] 50 = [] := by
  constructor
  · rfl
  · rfl

/-- C2 (amended): stale-cache eviction retains exactly the entries whose
filename parses as an integer that is at least the current first bucket;
an entry parsing below it, and equally an entry whose filename fails to parse
as an integer, is removed. -/
theorem c2_eviction_retains (names : List String) (zapTime : Int) (n : String) :
    n ∈ removeStaleCache names zapTime ↔
      n ∈ names ∧ ∃ t, pyInt10 n = some t ∧ zapTime ≤ t := by
  unfold removeStaleCache
  rw [List.mem_filter]
  refine and_congr_right fun _ => ?_
  unfold keepCacheEntry
  cases h : pyInt10 n with
  | none => simp
  | some t => simp

/-! ### C5 — tolerated 400 substitution, fatal other statuses -/

/-- C5: on a cache miss, a fetch failing with HTTP 400 yields the fixed
placeholder payload — which decodes to an empty `channels` list — persisted to
the cache under the requested key, and the call succeeds (the run continues);
a fetch failing with any other status propagates the code unchanged. -/
theorem c5_http_error_handling (cache : List (String × String)) (key : String)
    (delay : Nat) (h : cache.lookup key = none) :
    (getCached cache key delay (FetchResult.httpError 400) =
        Except.ok ⟨placeholder400, cache ++ [(key, placeholder400)], true, delay⟩ ∧
      (jsonLoads placeholder400).bind (J.getField "channels") = some (J.jarr [])) ∧
    (∀ code : Nat, code ≠ 400 →
      getCached cache key delay (FetchResult.httpError code) = Except.error code) := by
  refine ⟨⟨?_, by rfl⟩, ?_⟩
  · unfold getCached
    rw [h]
    rfl
  · intro code hc
    unfold getCached
    rw [h]
    show (if code = 400 then _ else Except.error code) = _
    rw [if_neg hc]

/-- C5 witness at a concrete miss. -/
theorem c5_http_error_handling_witness :
    (getCached [] "1700000000" 5 (FetchResult.httpError 400) =
        Except.ok ⟨placeholder400, [("1700000000", placeholder400)], true, 5⟩ ∧
      (jsonLoads placeholder400).bind (J.getField "channels") = some (J.jarr [])) ∧
    (∀ code : Nat, code ≠ 400 →
      getCached [] "1700000000" 5 (FetchResult.httpError code) = Except.error code) :=
  c5_http_error_handling [] "1700000000" 5 (by rfl)

/-! ### C6 — read-through cache behaviour and idempotence -/

/-- C6: a cache hit returns the stored bytes unchanged, with no fetch and no
delay; a miss fetches, persists the body under the key, sleeps the configured
delay and returns the body; consequently a second call with the same key
returns the same bytes as the first successful call without invoking the
fetch function (and without sleeping). -/
theorem c6_cache_read_through (cache : List (String × String)) (key : String)
    (delay : Nat) (f f2 : FetchResult) :
    (∀ b, cache.lookup key = some b →
      getCached cache key delay f = Except.ok ⟨b, cache, false, 0⟩) ∧
    (∀ body, cache.lookup key = none → f = FetchResult.ok body →
      getCached cache key delay f =
        Except.ok ⟨body, cache ++ [(key, body)], true, delay⟩) ∧
    (∀ r, getCached cache key delay f = Except.ok r →
      getCached r.cache key delay f2 = Except.ok ⟨r.bytes, r.cache, false, 0⟩) := by
  refine ⟨?_, ?_, ?_⟩
  · intro b hb
    unfold getCached
    rw [hb]
  · intro body hn hf
    unfold getCached
    rw [hn, hf]
  · intro r hr
    unfold getCached at hr ⊢
    cases hl : cache.lookup key with
    | some b =>
      simp only [hl] at hr
      have hr2 : Except.ok (⟨b, cache, false, 0⟩ : CacheResult) = Except.ok r := hr
      cases hr2
      simp only [hl]
    | none =>
      simp only [hl] at hr
      cases f with
      | ok body =>
        have hr2 : Except.ok (⟨body, cache ++ [(key, body)], true, delay⟩ : CacheResult) =
            Except.ok r := hr
        cases hr2
        have hk : (cache ++ [(key, body)]).lookup key = some body := by
          rw [lookup_append_of_none cache [(key, body)] key hl]
          simp [List.lookup]
        simp only [hk]
      | httpError code =>
        by_cases hc : code = 400
        · subst hc
          have hr2 : Except.ok
              (⟨placeholder400, cache ++ [(key, placeholder400)], true, delay⟩ : CacheResult) =
              Except.ok r := hr
          cases hr2
          have hk : (cache ++ [(key, placeholder400)]).lookup key = some placeholder400 := by
            rw [lookup_append_of_none cache [(key, placeholder400)] key hl]
            simp [List.lookup]
          simp only [hk]
        · have hr2 : (if code = 400 then
              Except.ok (⟨placeholder400, cache ++ [(key, placeholder400)], true, delay⟩ :
                CacheResult)
            else Except.error code) = Except.ok r := hr
          rw [if_neg hc] at hr2
          cases hr2

/-- C6 witness: a concrete miss-then-hit pair through the same key. -/
theorem c6_cache_read_through_witness :
    getCached [("100", "old")] "100" 5 (FetchResult.ok "fresh") =
      Except.ok ⟨"old", [("100", "old")], false, 0⟩ ∧
    getCached [] "100" 5 (FetchResult.ok "fresh") =
      Except.ok ⟨"fresh", [("100", "fresh")], true, 5⟩ ∧
    getCached [("100", "fresh")] "100" 5 (FetchResult.httpError 500) =
      Except.ok ⟨"fresh", [("100", "fresh")], false, 0⟩ := by
  refine ⟨?_, ?_, ?_⟩
  · exact (c6_cache_read_through [("100", "old")] "100" 5 (FetchResult.ok "fresh")
      (FetchResult.ok "fresh")).1 "old" (by rfl)
  · exact (c6_cache_read_through [] "100" 5 (FetchResult.ok "fresh")
      (FetchResult.ok "fresh")).2.1 "fresh" (by rfl) (by rfl)
  · exact (c6_cache_read_through [] "100" 5 (FetchResult.ok "fresh")
      (FetchResult.httpError 500)).2.2 ⟨"fresh", [("100", "fresh")], true, 5⟩ (by rfl)

/-! ### C7 — the time-window planner -/

/-- The bucket timestamps at every index of the plan. -/
theorem planBuckets_get (span ref i : Nat) (hi : i < 7 * 24 / span) :
    (planBuckets span ref)[i]? =
      some ((ref - ref % (span * 3600)) + i * (span * 3600)) := by
  unfold planBuckets
  rw [List.getElem?_map, List.getElem?_range hi]
  rfl

/-- C7: for a span that evenly divides 168 hours, the loop plans exactly
`168 / span` buckets; the first is the reference time aligned down to a
multiple of `span * 3600` seconds (hence a multiple of the window, at or
before the reference time), and each later bucket is exactly one window after
the previous one. -/
theorem c7_planner (span ref : Nat) (h1 : 0 < span) (h2 : span ∣ 168) :
    (planBuckets span ref).length = 168 / span ∧
    (planBuckets span ref).head? = some (ref - ref % (span * 3600)) ∧
    (span * 3600) ∣ (ref - ref % (span * 3600)) ∧
    ref - ref % (span * 3600) ≤ ref ∧
    (∀ i, i + 1 < 168 / span →
      (planBuckets span ref)[i + 1]? =
        ((planBuckets span ref)[i]?).map (fun t => t + span * 3600)) := by
  have h168 : 7 * 24 = 168 := by norm_num
  have hpos : 0 < 168 / span := Nat.div_pos (Nat.le_of_dvd (by norm_num) h2) h1
  refine ⟨?_, ?_, ?_, ?_, ?_⟩
  · simp [planBuckets, h168]
  · have h0 : (0 : Nat) < 7 * 24 / span := by rw [h168]; exact hpos
    have hg := planBuckets_get span ref 0 h0
    rw [List.head?_eq_getElem?, hg]
    simp
  · have := Nat.div_add_mod ref (span * 3600)
    exact ⟨ref / (span * 3600), by omega⟩
  · exact Nat.sub_le ref (ref % (span * 3600))
  · intro i hi
    have hi1 : i + 1 < 7 * 24 / span := by rw [h168]; exact hi
    have hi0 : i < 7 * 24 / span := by omega
    rw [planBuckets_get span ref (i + 1) hi1, planBuckets_get span ref i hi0]
    simp [Nat.add_mul, Nat.add_assoc]

/-- C7 witness at span 3 hours and a concrete reference time. -/
theorem c7_planner_witness :
    (planBuckets 3 43205).length = 168 / 3 ∧
    (planBuckets 3 43205).head? = some (43205 - 43205 % (3 * 3600)) ∧
    (3 * 3600) ∣ (43205 - 43205 % (3 * 3600)) ∧
    43205 - 43205 % (3 * 3600) ≤ 43205 ∧
    (planBuckets 3 43205)[1]? = ((planBuckets 3 43205)[0]?).map (fun t => t + 3 * 3600) := by
  have h := c7_planner 3 43205 (by norm_num) (by norm_num)
  exact ⟨h.1, h.2.1, h.2.2.1, h.2.2.2.1, h.2.2.2.2 0 (by norm_num)⟩

/-! ### C1 — the per-bucket loop that is not a loop -/

/-- C1 (code evaluated at the failing input): with two planned buckets
(span 84 h, reference 0 → buckets 0 and 302400) where bucket A holds two
channels with one event each and bucket B the same two channels with one
further event each, the run consults only the cache key of the final bucket
(302400; bucket A is never fetched, read or decoded) and the output holds 2
`channel` elements but only 2 `programme` elements — not the 4 the claim
requires — because the fetch/decode/aggregate statements sit after the bucket
loop, not inside it. -/
theorem c1_code_bug_eval :
    planBuckets 84 0 = [0, 302400] ∧
    (mainRun 84 0 dataAB).map (fun r =>
      (r.2,
        r.1.children.countP (fun x => x.name == "channel"),
        r.1.children.countP (fun x => x.name == "programme"))) =
      some ([302400], 2, 2) := by
  constructor
  · rfl
  · rfl

/-! ### C3 — which bucket populates the channel table -/

/-- Every programme element `aggregate` produces is tagged `programme`. -/
theorem aggregate_names (chs : List Channel) (progs : List Xml)
    (h : aggregate chs = some progs) : ∀ x ∈ progs, x.name = "programme" := by
  unfold aggregate at h
  cases hst : chs.foldlM processChannel ⟨[], none⟩ with
  | none =>
    rw [hst] at h
    cases h
  | some st =>
    rw [hst] at h
    have h2 : some ((st.closed ++ st.openP.toList).map closePNode) = some progs := h
    cases h2
    intro x hx
    rcases List.mem_map.1 hx with ⟨p, _, rfl⟩
    rfl

/-- C3 (counterexample): the first planned bucket's payload has a non-empty
channel list, yet the output document contains no `channel` element at all,
because the single payload actually processed — the final bucket's — decodes
to an empty channel list and the `done_channels` guard runs on it alone. -/
theorem c3_counterexample :
    (c3Data 0).channels ≠ [] ∧
    (mainRun 84 0 c3Data).map
      (fun r => r.1.children.countP (fun x => x.name == "channel")) = some 0 := by
  constructor
  · decide
  · rfl

/-- C3 (amended): the channel table is populated at most once, from the one
payload the program processes — that of the final planned bucket — whether or
not its channels array is empty; a channel appearing only in another bucket's
payload produces no channel element. -/
theorem c3_amended_channels_from_last_bucket (span ref : Nat) (data : Nat → Payload)
    (doc : Xml) (keys : List Nat) (h : mainRun span ref data = some (doc, keys)) :
    doc.children.filter (fun x => x.name == "channel") =
      (data (lastBucketTime span ref)).channels.map channelXml ∧
    keys = [lastBucketTime span ref] := by
  unfold mainRun at h
  by_cases hz : 7 * 24 / span = 0
  · rw [if_pos hz] at h
    cases h
  · rw [if_neg hz] at h
    cases hb : buildDoc (data (lastBucketTime span ref)) with
    | none =>
      rw [hb] at h
      cases h
    | some d =>
      rw [hb] at h
      have h2 : some (d, [lastBucketTime span ref]) = some (doc, keys) := h
      cases h2
      unfold buildDoc at hb
      cases hag : aggregate (data (lastBucketTime span ref)).channels with
      | none =>
        rw [hag] at hb
        cases hb
      | some progs =>
        rw [hag] at hb
        have hb2 : some (Xml.el "tv" rootAttrs none
            ((data (lastBucketTime span ref)).channels.map channelXml ++ progs)) = some doc := hb
        cases hb2
        refine ⟨?_, rfl⟩
        have hfil1 : ((data (lastBucketTime span ref)).channels.map channelXml).filter
            (fun x => x.name == "channel") =
            (data (lastBucketTime span ref)).channels.map channelXml := by
          apply List.filter_eq_self.mpr
          intro x hx
          rcases List.mem_map.1 hx with ⟨c, _, rfl⟩
          rfl
        have hfil2 : progs.filter (fun x => x.name == "channel") = [] := by
          apply List.filter_eq_nil_iff.mpr
          intro x hx
          have hn := aggregate_names _ progs hag x hx
          simp [hn]
        simp only [Xml.children, List.filter_append, hfil1, hfil2, List.append_nil]

/-- C3 amended witness: the concrete two-bucket data of the counterexample. -/
theorem c3_amended_witness :
    (Xml.el "tv" rootAttrs none []).children.filter (fun x => x.name == "channel") =
      (c3Data (lastBucketTime 84 0)).channels.map channelXml ∧
    ([302400] : List Nat) = [lastBucketTime 84 0] :=
  c3_amended_channels_from_last_bucket 84 0 c3Data (Xml.el "tv" rootAttrs none [])
    [302400] (by rfl)

/-! ### C4 — where the `desc` element actually lands -/

/-- C4 (code evaluated at the failing input): in a payload whose first channel
has two events (both with the title and description data the claim needs) and
whose second channel has one, the per-programme `desc` children are
`[[], ["Unavailable"], ["descC"]]`: the first event's programme carries no
`desc` at all — the detail block runs once per channel, on the last event's
programme — while the text rules (short description when present,
`"Unavailable"` when absent) only ever apply there. -/
theorem c4_code_bug_eval :
    (buildDoc payD).map (fun d =>
      (d.children.filter (fun x => x.name == "programme")).map
        (fun x => (x.children.filter (fun y => y.name == "desc")).map Xml.text)) =
      some [[], [some "Unavailable"], [some "descC"]] := by
  rfl

/-! ### C8 — where the `episode-num` elements actually land -/

/-- C8 (code evaluated at the failing input): the first channel's first event
has season `"1"` and episode `"5"`, yet its programme carries no `episode-num`
element (the detail block never runs for it); when the season/episode-bearing
event is a channel's last (second channel), exactly the three claimed
elements appear, with texts `S01E05` (common), `0.4.` (xmltv_ns) and `S01E05`
again under the third, malformed `system` label. -/
theorem c8_code_bug_eval :
    (buildDoc payE).map (fun d =>
      (d.children.filter (fun x => x.name == "programme")).map
        (fun x => (x.children.filter (fun y => y.name == "episode-num")).map
          (fun y => (y.attrs, y.text)))) =
      some [[], [],
        [([("system", "common")], some "S01E05"),
         ([("system", "xmltv_ns")], some "0.4."),
         ([("system", "SxxExx\">S")], some "S01E05")]] := by
  rfl

/-! ### C9 — where the `new` element actually lands -/

/-- C9 (code evaluated at the failing input): flags `{"New"}` on a channel's
first of two events yield no `new` element on its programme (claim expects
one); the rule is only applied to each channel's last event, where
`{"New","live"}` indeed yields none and `{"New"}` yields one. -/
theorem c9_code_bug_eval :
    (buildDoc payN).map (fun d =>
      (d.children.filter (fun x => x.name == "programme")).map
        (fun x => x.children.countP (fun y => y.name == "new"))) =
      some [0, 0, 0, 1] := by
  rfl

/-! ### C10 — detail children attach once per channel, to the last event's
programme -/

/-- Folding the event loop from any state over a non-empty event list: every
event's timestamps are parsed, each event but the last leaves a bare
programme node (attributes only, no children), any previously open programme
is closed unchanged, and the last event's node is left open with no children
yet. -/
theorem foldlM_pushEvent (cId : String) (es : List Event) (e : Event) :
    ∀ (st : AggSt) (bs : List PNode) (a : List (String × String)),
      barePNodes cId es = some bs → evAttrs cId e = some a →
      (es ++ [e]).foldlM (pushEvent cId) st =
        some ⟨st.closed ++ st.openP.toList ++ bs, some ⟨e, a, []⟩⟩ := by
  induction es with
  | nil =>
    intro st bs a hbs ha
    have hbs2 : some ([] : List PNode) = some bs := hbs
    cases hbs2
    simp [List.foldlM, pushEvent, ha]
  | cons e0 es ih =>
    intro st bs a hbs ha
    unfold barePNodes at hbs
    rw [List.mapM_cons] at hbs
    cases h0 : evAttrs cId e0 with
    | none =>
      rw [h0] at hbs
      cases hbs
    | some a0 =>
      rw [h0] at hbs
      cases hrest : es.mapM (fun ev => (evAttrs cId ev).map (fun a2 => PNode.mk ev a2 [])) with
      | none =>
        rw [hrest] at hbs
        cases hbs
      | some bs0 =>
        rw [hrest] at hbs
        have hbs2 : some (PNode.mk e0 a0 [] :: bs0) = some bs := hbs
        cases hbs2
        have hstep : pushEvent cId st e0 =
            some ⟨st.closed ++ st.openP.toList, some ⟨e0, a0, []⟩⟩ := by
          unfold pushEvent
          rw [h0]
          rfl
        have hih := ih ⟨st.closed ++ st.openP.toList, some ⟨e0, a0, []⟩⟩ bs0 a hrest ha
        show (e0 :: (es ++ [e])).foldlM (pushEvent cId) st = _
        rw [List.foldlM_cons, hstep]
        show List.foldlM (pushEvent cId)
            ⟨st.closed ++ st.openP.toList, some ⟨e0, a0, []⟩⟩ (es ++ [e]) = _
        rw [hih]
        simp [List.append_assoc]

/-- C10: for a channel whose events are `es ++ [e]`, the channel loop body
produces one bare programme node per earlier event (only the `start`, `stop`
and `channel` attributes; no children) and appends the detail children
exactly once, to the programme node created for the last event `e`; any
programme left open by a previous channel is closed without further
additions. -/
theorem c10_details_on_last_event_only (c : Channel) (st : AggSt)
    (es : List Event) (e : Event) (hes : c.events = es ++ [e])
    (bs : List PNode)
    (hbs : barePNodes (zapChannelId c.channelNo c.channelId) es = some bs)
    (a : List (String × String))
    (ha : evAttrs (zapChannelId c.channelNo c.channelId) e = some a)
    (det : List Xml) (hdet : detailChildren e = some det) :
    processChannel st c =
      some ⟨st.closed ++ st.openP.toList ++ bs, some ⟨e, a, det⟩⟩ := by
  unfold processChannel
  rw [hes]
  rw [foldlM_pushEvent _ es e st bs a hbs ha]
  simp [hdet]

/-- C10 witness: the two-event channel `chD` processed from the empty state:
the first event's programme is bare, the detail children sit once on the
second (last) event's node. -/
theorem c10_details_on_last_event_only_witness :
    processChannel ⟨[], none⟩ chD =
      some ⟨([] : List PNode) ++ (Option.toList (none : Option PNode)) ++
          ((barePNodes (zapChannelId chD.channelNo chD.channelId) [evD1]).getD []),
        some ⟨evD2,
          ((evAttrs (zapChannelId chD.channelNo chD.channelId) evD2).getD []),
          ((detailChildren evD2).getD [])⟩⟩ :=
  c10_details_on_last_event_only chD ⟨[], none⟩ [evD1] evD2 (by rfl)
    ((barePNodes (zapChannelId chD.channelNo chD.channelId) [evD1]).getD []) (by rfl)
    ((evAttrs (zapChannelId chD.channelNo chD.channelId) evD2).getD []) (by rfl)
    ((detailChildren evD2).getD []) (by rfl)

end Zap2xml
